import Mathlib

/-!
Verification development for the pyTara_V TARA pipeline.

The definitions below are shallow embeddings of the Python source:

* `SeverityLevel`, `AttackFeasibilityRating` — enums from
  tara_objs/damage_scenario_impact_level.py and
  tara_objs/threat_scenario_attack_feasibility.py.
* `calculate_overall_risk_value` — the risk matrix of
  AssetTaraInfo.calculate_overall_risk (feasibility-first lookup).
* `calculate_risk_value` — the risk matrix of
  AssetThreatRiskTreatmentDecision.calculate_risk_value (severity-first lookup).
* `DamageScenarioImpactLevel` and its operations.

Floats of the source are modelled as rationals; Python ints as Nat/Int.
-/

namespace PyTara

/-- Enumeration SeverityLevel from damage_scenario_impact_level.py:
NEGLIGIBLE = 0, MODERATE = 1, MAJOR = 2, SEVERE = 3. -/
inductive SeverityLevel where
  | NEGLIGIBLE
  | MODERATE
  | MAJOR
  | SEVERE
deriving DecidableEq, Repr

namespace SeverityLevel

/-- Numeric value of each member (the Python enum value). -/
def val : SeverityLevel → Nat
  | NEGLIGIBLE => 0
  | MODERATE => 1
  | MAJOR => 2
  | SEVERE => 3

/-- Name of each member (the Python enum name). -/
def enumName : SeverityLevel → String
  | NEGLIGIBLE => "NEGLIGIBLE"
  | MODERATE => "MODERATE"
  | MAJOR => "MAJOR"
  | SEVERE => "SEVERE"

/-- Inverse of `val`. Python writes SeverityLevel(n), which raises for n
outside 0..3; every call in the source passes a max of member values, so
the default branch is unreachable there. -/
def ofVal : Nat → SeverityLevel
  | 0 => NEGLIGIBLE
  | 1 => MODERATE
  | 2 => MAJOR
  | _ => SEVERE

/-- SeverityLevel.get: first member whose name equals severity.upper(),
defaulting to NEGLIGIBLE. -/
def get (severity : String) : SeverityLevel :=
  let members := [NEGLIGIBLE, MODERATE, MAJOR, SEVERE]
  match members.find? (fun m => m.enumName == severity.toUpper) with
  | some m => m
  | none => NEGLIGIBLE

end SeverityLevel

/-- Enumeration AttackFeasibilityRating from
threat_scenario_attack_feasibility.py, with its string values. -/
inductive AttackFeasibilityRating where
  | VERY_LOW
  | LOW
  | MEDIUM
  | HIGH
deriving DecidableEq, Repr

namespace AttackFeasibilityRating

/-- String value of each member (the Python enum value). -/
def val : AttackFeasibilityRating → String
  | VERY_LOW => "verylow"
  | LOW => "low"
  | MEDIUM => "medium"
  | HIGH => "high"

end AttackFeasibilityRating

/-- Risk computation of AssetTaraInfo.calculate_overall_risk: a dict from
feasibility value strings to rows indexed by impact_level.value.
risk_matrix = \x7b"verylow": [1,1,1,2], "low": [1,2,2,3],
"medium": [1,2,3,4], "high": [1,3,4,5]\x7d, looked up as
risk_matrix[attack_feasibility.value][impact_level]. -/
def calculate_overall_risk_value (feasibility : AttackFeasibilityRating)
    (impact : SeverityLevel) : Nat :=
  let row : List Nat :=
    match feasibility with
    | AttackFeasibilityRating.VERY_LOW => [1, 1, 1, 2]
    | AttackFeasibilityRating.LOW => [1, 2, 2, 3]
    | AttackFeasibilityRating.MEDIUM => [1, 2, 3, 4]
    | AttackFeasibilityRating.HIGH => [1, 3, 4, 5]
  row.getD impact.val 0

/-- Risk computation of AssetThreatRiskTreatmentDecision.calculate_risk_value:
risk_matrix = [[2,3,4,5],[1,2,3,4],[1,2,2,3],[1,1,1,1]] indexed as
risk_matrix[impact_index][feasibility_index], where impact_index is the
position of the impact level in [SEVERE, MAJOR, MODERATE, NEGLIGIBLE] and
feasibility_index the position of the rating value in
["verylow","low","medium","high"]. -/
def calculate_risk_value (impact : SeverityLevel)
    (feasibility : AttackFeasibilityRating) : Nat :=
  let risk_matrix : List (List Nat) :=
    [[2, 3, 4, 5], [1, 2, 3, 4], [1, 2, 2, 3], [1, 1, 1, 1]]
  let impact_values :=
    [SeverityLevel.SEVERE, SeverityLevel.MAJOR,
     SeverityLevel.MODERATE, SeverityLevel.NEGLIGIBLE]
  let impact_index := (impact_values.indexOf impact)
  let feasibility_values := ["verylow", "low", "medium", "high"]
  let feasibility_index := (feasibility_values.indexOf feasibility.val)
  ((risk_matrix.getD impact_index []).getD feasibility_index 0)

/-- Data of class DamageScenarioImpactLevel. -/
structure DamageScenarioImpactLevel where
  damage_scenario_sn : String
  damage_scenario : String
  safety : SeverityLevel
  financial : SeverityLevel
  operational : SeverityLevel
  privacy : SeverityLevel
  impact_level : SeverityLevel
deriving DecidableEq, Repr

namespace DamageScenarioImpactLevel

/-- Method _calculate_impact_level: SeverityLevel of the maximum of the four
member values. -/
def calcImpactLevel (safety financial operational privacy : SeverityLevel) :
    SeverityLevel :=
  SeverityLevel.ofVal
    (max (max (max safety.val financial.val) operational.val) privacy.val)

/-- Constructor __init__ of DamageScenarioImpactLevel: stores the fields and
computes impact_level with _calculate_impact_level. -/
def init (damage_scenario_sn damage_scenario : String)
    (safety financial operational privacy : SeverityLevel) :
    DamageScenarioImpactLevel :=
  { damage_scenario_sn := damage_scenario_sn
    damage_scenario := damage_scenario
    safety := safety
    financial := financial
    operational := operational
    privacy := privacy
    impact_level := calcImpactLevel safety financial operational privacy }

/-- Method set_impact_levels: overwrite each dimension that is not None, then
recompute impact_level. -/
def set_impact_levels (d : DamageScenarioImpactLevel)
    (safety financial operational privacy : Option SeverityLevel) :
    DamageScenarioImpactLevel :=
  let s := safety.getD d.safety
  let f := financial.getD d.financial
  let o := operational.getD d.operational
  let p := privacy.getD d.privacy
  { d with
    safety := s, financial := f, operational := o, privacy := p
    impact_level := calcImpactLevel s f o p }

/-- Method set_impact_levels_by_strings: convert each attribute string through
SeverityLevel.get when it is truthy (present and non-empty), call
set_impact_levels, and recompute impact_level once more. -/
def set_impact_levels_by_strings (d : DamageScenarioImpactLevel)
    (safety financial operational privacy : Option String) :
    DamageScenarioImpactLevel :=
  let conv : Option String → Option SeverityLevel := fun a =>
    match a with
    | none => none
    | some s => if s = "" then none else some (SeverityLevel.get s)
  let d1 := d.set_impact_levels (conv safety) (conv financial)
    (conv operational) (conv privacy)
  { d1 with
    impact_level :=
      calcImpactLevel d1.safety d1.financial d1.operational d1.privacy }

end DamageScenarioImpactLevel

/-- Invariant asserted by claim C10: the stored overall impact level is the
recomputed maximum of the four dimensions and is below none of them. -/
def ImpactInvariant (d : DamageScenarioImpactLevel) : Prop :=
  d.impact_level =
    DamageScenarioImpactLevel.calcImpactLevel d.safety d.financial
      d.operational d.privacy ∧
  d.safety.val ≤ d.impact_level.val ∧
  d.financial.val ≤ d.impact_level.val ∧
  d.operational.val ≤ d.impact_level.val ∧
  d.privacy.val ≤ d.impact_level.val

/-- Minimal JSON value universe for the payloads handled by
BaseAIAssistant._validate_response_format: strings, numbers, objects
(ordered key/value lists; Python dicts have unique keys) and arrays. -/
inductive Json where
  | str : String → Json
  | num : Int → Json
  | obj : List (String × Json) → Json
  | arr : List Json → Json

/-- Dict lookup response_json[key]: first binding of the key, none models a
KeyError / missing key. -/
def lookupKey (fields : List (String × Json)) (k : String) : Option Json :=
  match fields.find? (fun p => p.1 == k) with
  | some p => some p.2
  | none => none

/-- Substring test, the semantics of Python's `needle in haystack` on
strings: the empty needle is contained everywhere, otherwise the haystack
splits into at least two parts on the needle. -/
def isSubstrOf (needle hay : String) : Bool :=
  if needle = "" then true else decide (2 ≤ (hay.splitOn needle).length)

/-- Equality of a JSON value with a plain string, as Python `==` between a
container element and a str: only a str element can compare equal. -/
def jsonEqStr (j : Json) (k : String) : Bool :=
  match j with
  | Json.str s => s == k
  | _ => false

/-- Membership test `sub_key in response_json[key]` of Python: key membership
for dicts, element equality for lists, substring for strings; `in` on a
number raises TypeError, which the validator's except-clause turns into a
False result, modelled as false here. -/
def pyMem (k : String) : Json → Bool
  | Json.obj fields => fields.any (fun p => p.1 == k)
  | Json.arr items => items.any (fun j => jsonEqStr j k)
  | Json.str s => isSubstrOf k s
  | Json.num _ => false

/-- Keys singled out by _validate_response_format for full sequence-element
validation. -/
def special_list_keys : List String :=
  ["possible_damage_scenario_list", "possible_threat_scenario_list",
   "possible_attack_path_list", "asset_cybersecurity_requirement_list"]

/-- Blank test of Python: sub_content.strip() == "" holds exactly when every
character of the string is whitespace. -/
def isBlank (s : String) : Bool :=
  s.data.all (fun c => c.isWhitespace)

/-- Check of one sequence element in the special-key branch: Python iterates
item.items() and rejects when sub_content.strip() == "". A non-object item
raises AttributeError on .items(), a non-string field raises AttributeError
on .strip(); both are caught by the surrounding except and yield False. -/
def elementOk (item : Json) : Bool :=
  match item with
  | Json.obj fields =>
      fields.all (fun q =>
        match q.2 with
        | Json.str s => !(isBlank s)
        | _ => false)
  | _ => false

/-- Body of BaseAIAssistant._validate_response_format after format_text has
been parsed into format_json. Keys in special_list_keys demand a present,
non-empty sequence of objects whose string fields are non-blank (a present
non-sequence value always ends in False: an empty dict or string fails the
len check, a non-empty one raises AttributeError while iterating, a number
raises TypeError at len, all caught as False). A key whose template value is
an object demands presence of every nested key in the corresponding payload
value. Any other key only has to be present. -/
def keyClauseOk (response_json : List (String × Json)) (key : String)
    (format_value : Json) : Bool :=
  if special_list_keys.contains key then
    match lookupKey response_json key with
    | none => false
    | some (Json.arr items) =>
        if items.isEmpty then false else items.all elementOk
    | some _ => false
  else
    match format_value with
    | Json.obj sub_format =>
        match lookupKey response_json key with
        | none => false
        | some v => sub_format.all (fun q => pyMem q.1 v)
    | _ =>
        match lookupKey response_json key with
        | none => false
        | some _ => true

/-- Top-level loop of _validate_response_format over format_json.items(). -/
def validate_response_format
    (format_json response_json : List (String × Json)) : Bool :=
  format_json.all (fun p => keyClauseOk response_json p.1 p.2)

/-- Template of claim C1: a key outside special_list_keys mapped to a
one-element sequence template. -/
def fmtListKey : List (String × Json) :=
  [("list_key", Json.arr [Json.obj [("a", Json.str "x")]])]

/-- Payload of claim C1 with a blank string in the second sequence element. -/
def payloadListKeyBlank : List (String × Json) :=
  [("list_key",
    Json.arr [Json.obj [("a", Json.str "1")], Json.obj [("a", Json.str "")]])]

/-- Template using one of the four enumerated list keys. -/
def fmtDS : List (String × Json) :=
  [("possible_damage_scenario_list",
    Json.arr [Json.obj [("damage_scenario_1", Json.str "x")]])]

/-- Payload for fmtDS with a blank string field in one element. -/
def payloadDSBlank : List (String × Json) :=
  [("possible_damage_scenario_list",
    Json.arr [Json.obj [("damage_scenario_1", Json.str "1")],
              Json.obj [("damage_scenario_2", Json.str "")]])]

/-- Payload for fmtDS with only non-blank fields. -/
def payloadDSGood : List (String × Json) :=
  [("possible_damage_scenario_list",
    Json.arr [Json.obj [("damage_scenario_1", Json.str "1")]])]

/-- Python str.find for a single character: index of the first occurrence,
none modelling the -1 result. -/
def strFind (s : String) (c : Char) : Option Nat :=
  s.data.indexOf? c

/-- Python str.rfind for a single character: index of the last occurrence,
none modelling the -1 result. -/
def strRfind (s : String) (c : Char) : Option Nat :=
  match s.data.reverse.indexOf? c with
  | some i => some (s.data.length - 1 - i)
  | none => none

/-- Python slice s[start:stop] on strings (empty when stop is at or before
start, clipped at the end of the string). -/
def pySlice (s : String) (start stop : Nat) : String :=
  String.mk ((s.data.drop start).take (stop - start))

/-- Method BaseAIAssistant._validate_json_response, parameterized by the
external json.loads, modelled as a partial parse function (none is a
JSONDecodeError / any parse exception). The Python condition
start != -1 and end != 0 with end = rfind + 1 holds exactly when both
characters are found; a final none models the raised ValueError. -/
def validate_json_response {α : Type} (loads : String → Option α)
    (response_text : String) : Option α :=
  match loads response_text with
  | some j => some j
  | none =>
    match strFind response_text '{', strRfind response_text '}' with
    | some start, some rend =>
        loads (pySlice response_text start (rend + 1))
    | _, _ => none

/-- Concrete parse oracle for the C8 witness: recognizes only the three
character text between braces. -/
def loadsW : String → Option Nat := fun s =>
  if s = String.mk ['{', 'x', '}'] then some 3 else none

/-- Concrete response text for the C8 witness: a brace region surrounded by
junk, not parseable as a whole. -/
def textW : String :=
  String.mk ['a', '{', 'x', '}', 'b']

/-- Trace of one retry loop execution: number of attempts made, the sleeps
performed between attempts in order, and the final outcome (none models the
loop ending in an exception path or an explicit return None). -/
structure RetryTrace (α : Type) where
  attempts : Nat
  delays : List Nat
  result : Option α

/-- Loop of BaseAIAssistant.request_ai_response, abstracted over the outcome
of each attempt (token acquisition, request preparation, transmission,
parsing and format validation are one attempt; outcome k is some parsed
response when attempt with retry_count k succeeds, none when it raises).
Parameter k is the retry_count at the current attempt, remaining the number
of retries still allowed; after a failure with retries remaining the code
sleeps min(2 ** (retry_count - 1), 30) seconds, which is min(2 ^ k, 30) for
the attempt that just failed. -/
def request_go {α : Type} (outcome : Nat → Option α) :
    Nat → Nat → RetryTrace α
  | k, remaining =>
    match outcome k with
    | some v => ⟨1, [], some v⟩
    | none =>
      match remaining with
      | 0 => ⟨1, [], none⟩
      | r + 1 =>
          let rest := request_go outcome (k + 1) r
          ⟨rest.attempts + 1, min (2 ^ k) 30 :: rest.delays, rest.result⟩

/-- Method request_ai_response: run the retry loop from retry_count 0 with
max_retries retries allowed; a none result models the final raised
Exception after exhausting all attempts. -/
def request_ai_response {α : Type} (outcome : Nat → Option α)
    (max_retries : Nat) : RetryTrace α :=
  request_go outcome 0 max_retries

/-- Loop of process_threat_scenario_async in tara_workflow.py, abstracted over
the outcome of each attempt at the stage pair (risk-treatment assessment then
CSO/CSR assessment). The code sleeps 2 ** (retry_count - 1) before retry
retry_count and returns None (not an exception) when retry_count exceeds
max_retries. -/
def process_threat_scenario_go {α : Type} (outcome : Nat → Option α) :
    Nat → Nat → RetryTrace α
  | k, remaining =>
    match outcome k with
    | some v => ⟨1, [], some v⟩
    | none =>
      match remaining with
      | 0 => ⟨1, [], none⟩
      | r + 1 =>
          let rest := process_threat_scenario_go outcome (k + 1) r
          ⟨rest.attempts + 1, 2 ^ k :: rest.delays, rest.result⟩

/-- Function process_threat_scenario_async with its hard-coded max_retries =
2. -/
def process_threat_scenario {α : Type} (outcome : Nat → Option α) :
    RetryTrace α :=
  process_threat_scenario_go outcome 0 2

/-- Token-bucket state of BaseAIAssistant (fields tokens, max_burst,
last_refill_time, token_refill_rate); Python floats are modelled as
rationals. The constructor initializes tokens = max_burst and
token_refill_rate = rate_limit_per_minute / 60. -/
structure TokenBucket where
  tokens : ℚ
  max_burst : ℚ
  last_refill_time : ℚ
  token_refill_rate : ℚ

/-- Method _refill_tokens (and its async twin, which is textually identical):
add elapsed * token_refill_rate tokens capped at max_burst and advance the
refill timestamp, but only when the computed amount is positive. -/
def _refill_tokens (b : TokenBucket) (current_time : ℚ) : TokenBucket :=
  let elapsed := current_time - b.last_refill_time
  let new_tokens := elapsed * b.token_refill_rate
  if 0 < new_tokens then
    { b with
      tokens := min b.max_burst (b.tokens + new_tokens)
      last_refill_time := current_time }
  else b

/-- One iteration of the while-loop in _acquire_token: refill, then debit
required_tokens and succeed when enough tokens are available, otherwise
leave the bucket unchanged (the code then sleeps and loops, which a later
acquire step of the operation sequence models). -/
def _acquire_token_step (b : TokenBucket)
    (current_time required_tokens : ℚ) : TokenBucket × Bool :=
  let b1 := _refill_tokens b current_time
  if required_tokens ≤ b1.tokens then
    ({ b1 with tokens := b1.tokens - required_tokens }, true)
  else (b1, false)

/-- Event of a token-bucket history: an elapsed-time refill or one
acquisition attempt at a given time for a given token amount. -/
inductive BucketOp where
  | refill (current_time : ℚ)
  | acquire (current_time : ℚ) (required_tokens : ℚ)

/-- Run a sequence of token-bucket events. -/
def run_bucket (b : TokenBucket) : List BucketOp → TokenBucket
  | [] => b
  | op :: ops =>
    match op with
    | BucketOp.refill t => run_bucket (_refill_tokens b t) ops
    | BucketOp.acquire t n => run_bucket (_acquire_token_step b t n).1 ops

/-- Invariant of claim C4: 0 ≤ tokens ≤ max_burst. -/
def BucketInvariant (b : TokenBucket) : Prop :=
  0 ≤ b.tokens ∧ b.tokens ≤ b.max_burst

/-- Acquisition amounts are non-negative (the source always acquires the
default of 1 token). -/
def BucketOpNonneg : BucketOp → Prop
  | BucketOp.refill _ => True
  | BucketOp.acquire _ n => 0 ≤ n

/-- Timeout update of DeepSeekAIAssistant._send_request on a timeout-class
failure: current_timeout = min(current_timeout * 1.5, 120). -/
def update_timeout (t : ℚ) : ℚ := min (t * (3 / 2)) 120

/-- Sequence of per-attempt timeouts across consecutive timeout-class
failures inside one _send_request call, starting from the configured
timeout. -/
def timeout_seq (t0 : ℚ) : Nat → ℚ
  | 0 => t0
  | n + 1 => update_timeout (timeout_seq t0 n)

/-- Enumeration RiskTreatmentOption (risk_treatment_decision.py): AVOID,
REDUCE, SHARE, RETAIN with capitalized string values. -/
inductive RiskTreatmentOption where
  | AVOID
  | REDUCE
  | SHARE
  | RETAIN
deriving DecidableEq, Repr

/-- Python expression member.name.lower() for each RiskTreatmentOption
member, precomputed (the member names are AVOID, REDUCE, SHARE, RETAIN). -/
def RiskTreatmentOption.nameLower : RiskTreatmentOption → String
  | RiskTreatmentOption.AVOID => "avoid"
  | RiskTreatmentOption.REDUCE => "reduce"
  | RiskTreatmentOption.SHARE => "share"
  | RiskTreatmentOption.RETAIN => "retain"

/-- Data of class RiskTreatmentDecision: risk_value starts at 0, the other
fields are optional. -/
structure RiskTreatmentDecision where
  risk_value : Int
  risk_treatment : Option RiskTreatmentOption
  item_change : Option String
  cybersecurity_claim_id : Option String
  cybersecurity_claim : Option String
  cybersecurity_goal_id : Option String
  cybersecurity_goal : Option String

/-- Data of class CybersecurityControlRequirement; allocated_to_device is
typed bool in the constructor but the workflow assigns the yes/no string from
the analysis result, so it is modelled as an optional string. -/
structure CybersecurityControlRequirement where
  cybersecurity_control_id : Option String
  cybersecurity_control : Option String
  allocated_to_device : Option String
  cybersecurity_requirement_id : Option String
  cybersecurity_requirement : Option String
deriving DecidableEq, Repr

/-- Expression CybersecurityControlRequirement(): every field defaults to
None. -/
def emptyCCR : CybersecurityControlRequirement :=
  ⟨none, none, none, none, none⟩

/-- Data of class AssetTaraInfo. The three components untouched by the
CSO/CSR stage (asset attribute, damage scenario, threat scenario) are kept
as type parameters since asset_cso_csr_assessment never inspects them. -/
structure AssetTaraInfo (A D T : Type) where
  asset_cybersecurity_attribute : Option A
  damage_scenario_impact_level : Option D
  threat_scenario_attack_feasibility : Option T
  risk_treatment_decision : Option RiskTreatmentDecision
  cybersecurity_control_requirement : Option CybersecurityControlRequirement

/-- Fields of a successful CSO/CSR analysis response used by
asset_cso_csr_assessment. -/
structure CsoCsrAnalysis where
  cybersecurity_control : String
  allocated_to_device : String
  cybersecurity_requirement_id : String
  cybersecurity_requirement : String

/-- Control requirement after the Reduce branch: the four fields are copied
from the analysis result and regenerate_csr_id immediately overwrites
cybersecurity_requirement_id with a fresh time-hashed id (csr_id here, an
oracle input since the hash involves the wall clock);
cybersecurity_control_id is never assigned and stays None. -/
def populatedCCR (analysis : CsoCsrAnalysis) (csr_id : String) :
    CybersecurityControlRequirement :=
  { cybersecurity_control_id := none
    cybersecurity_control := some analysis.cybersecurity_control
    allocated_to_device := some analysis.allocated_to_device
    cybersecurity_requirement_id := some csr_id
    cybersecurity_requirement := some analysis.cybersecurity_requirement }

/-- Function asset_cso_csr_assessment of tara_workflow.py (the async variant
is textually identical): attach a fresh empty CybersecurityControlRequirement,
then only when risk_treatment.name.lower() == "reduce" issue the AI request
(whose successful response is the analysis oracle; the returned Bool records
whether the request was issued) and populate the requirement fields. A none
result models the AttributeError raised when the artifact has no
risk-treatment decision or no risk_treatment member. -/
def asset_cso_csr_assessment {A D T : Type} (analysis : CsoCsrAnalysis)
    (csr_id : String) (a : AssetTaraInfo A D T) :
    Option (AssetTaraInfo A D T × Bool) :=
  let a1 := { a with cybersecurity_control_requirement := some emptyCCR }
  match a1.risk_treatment_decision with
  | none => none
  | some rtd =>
    match rtd.risk_treatment with
    | none => none
    | some rt =>
      if rt.nameLower == "reduce" then
        some ({ a1 with cybersecurity_control_requirement := some (populatedCCR analysis csr_id) }, true)
      else
        some (a1, false)

/-- Concrete analysis result for the C6 witness. -/
def witnessAnalysis : CsoCsrAnalysis :=
  ⟨"ctrl", "yes", "CSR-001", "req"⟩

/-- Concrete artifact for the C6 witness, with a Retain decision. -/
def witnessArtifact : AssetTaraInfo Unit Unit Unit :=
  ⟨none, none, none,
   some ⟨0, some RiskTreatmentOption.RETAIN, none, none, none, none, none⟩,
   none⟩

/-- Body of the fan-in collection loops in exec_tara_analysis_workflow_async,
_process_asset_async and process_attribute_async: an Exception outcome is
logged and skipped (continue), a completed outcome extends the accumulator
with its result list. -/
def branchStep {e a : Type} (acc : List a) (r : Except e (List a)) : List a :=
  match r with
  | Except.ok res => acc ++ res
  | Except.error _ => acc

/-- Fan-in collection loop over the outcome list delivered by asyncio.gather
with return_exceptions=True, starting from an empty accumulator. -/
def collect_branch_results {e a : Type}
    (outcomes : List (Except e (List a))) : List a :=
  outcomes.foldl branchStep []

/-- Result lists of the completed (non-exception) branches, in order. -/
def completed_results {e a : Type}
    (outcomes : List (Except e (List a))) : List (List a) :=
  outcomes.filterMap (fun r =>
    match r with
    | Except.ok res => some res
    | Except.error _ => none)

end PyTara

namespace PyTara

/-- Helper facts: the overall impact computed by _calculate_impact_level
is the componentwise maximum, hence at least each dimension. -/
lemma calcImpactLevel_ge (s f o p : SeverityLevel) :
    s.val ≤ (DamageScenarioImpactLevel.calcImpactLevel s f o p).val ∧
    f.val ≤ (DamageScenarioImpactLevel.calcImpactLevel s f o p).val ∧
    o.val ≤ (DamageScenarioImpactLevel.calcImpactLevel s f o p).val ∧
    p.val ≤ (DamageScenarioImpactLevel.calcImpactLevel s f o p).val := by
  cases s <;> cases f <;> cases o <;> cases p <;> decide

/-- Unfolding lemma: a successful attempt stops the request loop at once. -/
lemma request_go_some {α : Type} (outcome : Nat → Option α)
    (k remaining : Nat) (v : α) (ho : outcome k = some v) :
    request_go outcome k remaining = ⟨1, [], some v⟩ := by
  cases remaining <;> simp [request_go, ho]

/-- Unfolding lemma: a failed attempt with no retries left ends the request
loop. -/
lemma request_go_zero {α : Type} (outcome : Nat → Option α)
    (k : Nat) (ho : outcome k = none) :
    request_go outcome k 0 = ⟨1, [], none⟩ := by
  simp [request_go, ho]

/-- Unfolding lemma: a failed attempt with retries left sleeps and recurses. -/
lemma request_go_succ {α : Type} (outcome : Nat → Option α)
    (k r : Nat) (ho : outcome k = none) :
    request_go outcome k (r + 1) =
      ⟨(request_go outcome (k + 1) r).attempts + 1,
        min (2 ^ k) 30 :: (request_go outcome (k + 1) r).delays,
        (request_go outcome (k + 1) r).result⟩ := by
  simp [request_go, ho]

/-- Structural facts about the request retry loop: attempt count is bounded
by remaining + 1, the i-th sleep is min(2 ^ (k + i), 30), and a none result
means every allowed attempt was used. -/
lemma request_go_spec {α : Type} (outcome : Nat → Option α) :
    ∀ (remaining k : Nat),
      ((request_go outcome k remaining).attempts ≤ remaining + 1) ∧
      (∀ i, i < (request_go outcome k remaining).delays.length →
        (request_go outcome k remaining).delays.getD i 0
          = min (2 ^ (k + i)) 30) ∧
      ((request_go outcome k remaining).result = none →
        (request_go outcome k remaining).attempts = remaining + 1) := by
  intro remaining
  induction remaining with
  | zero =>
    intro k
    cases ho : outcome k with
    | some v => rw [request_go_some outcome k 0 v ho]; simp
    | none => rw [request_go_zero outcome k ho]; simp
  | succ r ih =>
    intro k
    cases ho : outcome k with
    | some v => rw [request_go_some outcome k (r + 1) v ho]; simp
    | none =>
      have ihk := ih (k + 1)
      rw [request_go_succ outcome k r ho]
      refine ⟨?_, ?_, ?_⟩
      · have h1 := ihk.1
        show (request_go outcome (k + 1) r).attempts + 1 ≤ r + 1 + 1
        omega
      · intro i hi
        cases i with
        | zero => simp
        | succ i =>
          simp only [List.length_cons] at hi
          have hlen : i < (request_go outcome (k + 1) r).delays.length := by
            omega
          have h2 := ihk.2.1 i hlen
          have harith : k + 1 + i = k + (i + 1) := by omega
          simpa [harith] using h2
      · intro hres
        have h3 := ihk.2.2 hres
        show (request_go outcome (k + 1) r).attempts + 1 = r + 1 + 1
        omega

/-- Unfolding lemma: a successful attempt stops the threat-scenario loop. -/
lemma pts_go_some {α : Type} (outcome : Nat → Option α)
    (k remaining : Nat) (v : α) (ho : outcome k = some v) :
    process_threat_scenario_go outcome k remaining = ⟨1, [], some v⟩ := by
  cases remaining <;> simp [process_threat_scenario_go, ho]

/-- Unfolding lemma: exhaustion of the threat-scenario loop returns None. -/
lemma pts_go_zero {α : Type} (outcome : Nat → Option α)
    (k : Nat) (ho : outcome k = none) :
    process_threat_scenario_go outcome k 0 = ⟨1, [], none⟩ := by
  simp [process_threat_scenario_go, ho]

/-- Unfolding lemma: a failure with retries left sleeps 2 ^ k and recurses. -/
lemma pts_go_succ {α : Type} (outcome : Nat → Option α)
    (k r : Nat) (ho : outcome k = none) :
    process_threat_scenario_go outcome k (r + 1) =
      ⟨(process_threat_scenario_go outcome (k + 1) r).attempts + 1,
        2 ^ k :: (process_threat_scenario_go outcome (k + 1) r).delays,
        (process_threat_scenario_go outcome (k + 1) r).result⟩ := by
  simp [process_threat_scenario_go, ho]

/-- Structural facts about the orchestrator retry loop of
process_threat_scenario_async. -/
lemma pts_go_spec {α : Type} (outcome : Nat → Option α) :
    ∀ (remaining k : Nat),
      ((process_threat_scenario_go outcome k remaining).attempts
        ≤ remaining + 1) ∧
      (∀ i, i < (process_threat_scenario_go outcome k remaining).delays.length →
        (process_threat_scenario_go outcome k remaining).delays.getD i 0
          = 2 ^ (k + i)) ∧
      ((process_threat_scenario_go outcome k remaining).result = none →
        (process_threat_scenario_go outcome k remaining).attempts
          = remaining + 1) := by
  intro remaining
  induction remaining with
  | zero =>
    intro k
    cases ho : outcome k with
    | some v => rw [pts_go_some outcome k 0 v ho]; simp
    | none => rw [pts_go_zero outcome k ho]; simp
  | succ r ih =>
    intro k
    cases ho : outcome k with
    | some v => rw [pts_go_some outcome k (r + 1) v ho]; simp
    | none =>
      have ihk := ih (k + 1)
      rw [pts_go_succ outcome k r ho]
      refine ⟨?_, ?_, ?_⟩
      · have h1 := ihk.1
        show (process_threat_scenario_go outcome (k + 1) r).attempts + 1
          ≤ r + 1 + 1
        omega
      · intro i hi
        cases i with
        | zero => simp
        | succ i =>
          simp only [List.length_cons] at hi
          have hlen :
              i < (process_threat_scenario_go outcome (k + 1) r).delays.length
            := by omega
          have h2 := ihk.2.1 i hlen
          have harith : k + 1 + i = k + (i + 1) := by omega
          simpa [harith] using h2
      · intro hres
        have h3 := ihk.2.2 hres
        show (process_threat_scenario_go outcome (k + 1) r).attempts + 1
          = r + 1 + 1
        omega

/-- Preservation of the bucket invariant by one refill. -/
lemma refill_invariant (b : TokenBucket) (t : ℚ)
    (hb : BucketInvariant b) : BucketInvariant (_refill_tokens b t) := by
  obtain ⟨h0, hcap⟩ := hb
  unfold _refill_tokens
  dsimp only
  split
  · constructor
    · exact le_min (by linarith) (by linarith)
    · exact min_le_left _ _
  · exact ⟨h0, hcap⟩

/-- Preservation of the bucket invariant by one acquisition attempt with a
non-negative token amount. -/
lemma acquire_invariant (b : TokenBucket) (t n : ℚ)
    (hb : BucketInvariant b) (hn : 0 ≤ n) :
    BucketInvariant (_acquire_token_step b t n).1 := by
  have h1 := refill_invariant b t hb
  obtain ⟨h0, hcap⟩ := h1
  unfold _acquire_token_step
  dsimp only
  split
  · rename_i hle
    refine ⟨?_, ?_⟩
    · show (0 : ℚ) ≤ (_refill_tokens b t).tokens - n
      linarith
    · show (_refill_tokens b t).tokens - n ≤ (_refill_tokens b t).max_burst
      linarith
  · exact ⟨h0, hcap⟩

/-- Collection lemma: the fan-in loop yields exactly the concatenation of
the completed branches' result lists. -/
lemma collect_branch_results_eq {e a : Type}
    (outcomes : List (Except e (List a))) :
    collect_branch_results outcomes = (completed_results outcomes).flatten := by
  have aux : ∀ (l : List (Except e (List a))) (acc : List a),
      l.foldl branchStep acc = acc ++ (completed_results l).flatten := by
    intro l
    induction l with
    | nil => intro acc; simp [completed_results]
    | cons x xs ih =>
      intro acc
      cases x with
      | ok res => simp [completed_results, branchStep, ih]
      | error err => simp [completed_results, branchStep, ih]
  simpa [collect_branch_results] using aux outcomes []

/-- Isolation lemma: turning the i-th branch outcome into an exception gives
the same completed list as removing that branch entirely. -/
lemma completed_set_error {e a : Type} :
    ∀ (outcomes : List (Except e (List a))) (i : Nat) (err : e),
      completed_results (outcomes.set i (Except.error err)) =
        completed_results (outcomes.eraseIdx i) := by
  intro outcomes
  induction outcomes with
  | nil => intro i err; simp
  | cons x xs ih =>
    intro i err
    cases i with
    | zero => simp [completed_results]
    | succ i =>
      have ih2 := ih i err
      simp only [completed_results] at ih2 ⊢
      rw [List.set_cons_succ, List.eraseIdx_cons_succ,
        List.filterMap_cons, List.filterMap_cons, ih2]

end PyTara

/-- C3: the feasibility-first risk table of AssetTaraInfo.calculate_overall_risk
and the severity-first risk table of
AssetThreatRiskTreatmentDecision.calculate_risk_value assign the same risk
value to every (impact level, attack feasibility rating) pair. -/
theorem c3_risk_matrices_agree :
    ∀ (impact : PyTara.SeverityLevel)
      (feasibility : PyTara.AttackFeasibilityRating),
      PyTara.calculate_overall_risk_value feasibility impact =
        PyTara.calculate_risk_value impact feasibility := by
  intro impact feasibility
  cases impact <;> cases feasibility <;> rfl

/-- C10: construction, set_impact_levels and set_impact_levels_by_strings all
leave DamageScenarioImpactLevel with impact_level equal to the maximum of the
four per-dimension severity levels, never below any individual dimension. -/
theorem c10_impact_level_invariant :
    (∀ (sn ds : String) (s f o p : PyTara.SeverityLevel),
      PyTara.ImpactInvariant
        (PyTara.DamageScenarioImpactLevel.init sn ds s f o p)) ∧
    (∀ (d : PyTara.DamageScenarioImpactLevel)
      (s f o p : Option PyTara.SeverityLevel),
      PyTara.ImpactInvariant (d.set_impact_levels s f o p)) ∧
    (∀ (d : PyTara.DamageScenarioImpactLevel) (s f o p : Option String),
      PyTara.ImpactInvariant (d.set_impact_levels_by_strings s f o p)) := by
  refine ⟨fun sn ds s f o p => ?_, fun d s f o p => ?_, fun d s f o p => ?_⟩
  · exact ⟨rfl, PyTara.calcImpactLevel_ge s f o p⟩
  · exact ⟨rfl, PyTara.calcImpactLevel_ge _ _ _ _⟩
  · exact ⟨rfl, PyTara.calcImpactLevel_ge _ _ _ _⟩

/-- C1 counterexample: with template \x7b"list_key":[\x7b"a":"x"\x7d]\x7d and payload
\x7b"list_key":[\x7b"a":"1"\x7d,\x7b"a":""\x7d]\x7d the claim requires validation to return
false (blank field in a required sequence element), but
_validate_response_format returns true: "list_key" is not one of the four
hard-coded list keys, so only presence of the key is checked. -/
theorem c1_validator_counterexample :
    PyTara.validate_response_format PyTara.fmtListKey
      PyTara.payloadListKeyBlank = true := by rfl

/-- C1 amended: sequence-element validation applies exactly to the four keys
enumerated in special_list_keys. For any template key among these, a payload
passing validation binds the key to a non-empty sequence of objects all of
whose fields are non-blank strings; and with template key
possible_damage_scenario_list the three concrete behaviors of the claim hold
(blank element rejected, clean payload accepted, missing key rejected). -/
theorem c1_validator_amended :
    (∀ (fmt resp : List (String × PyTara.Json)) (k : String)
      (tv : PyTara.Json),
      (k, tv) ∈ fmt →
      PyTara.special_list_keys.contains k = true →
      PyTara.validate_response_format fmt resp = true →
      ∃ items, PyTara.lookupKey resp k = some (PyTara.Json.arr items) ∧
        items ≠ [] ∧
        ∀ item ∈ items, ∃ fields, item = PyTara.Json.obj fields ∧
          ∀ q ∈ fields, ∃ s, q.2 = PyTara.Json.str s ∧
            PyTara.isBlank s = false) ∧
    PyTara.validate_response_format PyTara.fmtDS PyTara.payloadDSBlank
      = false ∧
    PyTara.validate_response_format PyTara.fmtDS PyTara.payloadDSGood
      = true ∧
    PyTara.validate_response_format PyTara.fmtDS [] = false := by
  refine ⟨?_, by rfl, by rfl, by rfl⟩
  intro fmt resp k tv hmem hk hval
  have hcl : PyTara.keyClauseOk resp k tv = true :=
    List.all_eq_true.mp hval (k, tv) hmem
  unfold PyTara.keyClauseOk at hcl
  rw [if_pos hk] at hcl
  cases hlk : PyTara.lookupKey resp k with
  | none => rw [hlk] at hcl; cases hcl
  | some v =>
    rw [hlk] at hcl
    cases v with
    | str s => cases hcl
    | num n => cases hcl
    | obj fields => cases hcl
    | arr items =>
      have hcl2 : (if items.isEmpty then false
          else items.all PyTara.elementOk) = true := hcl
      by_cases he : items.isEmpty
      · rw [if_pos he] at hcl2; cases hcl2
      · rw [if_neg he] at hcl2
        refine ⟨items, rfl, by simpa [List.isEmpty_iff] using he, ?_⟩
        intro item hitem
        have helem : PyTara.elementOk item = true :=
          List.all_eq_true.mp hcl2 item hitem
        cases item with
        | str s => cases helem
        | num n => cases helem
        | arr l => cases helem
        | obj flds =>
          refine ⟨flds, rfl, ?_⟩
          intro q hq
          have hf := List.all_eq_true.mp helem q hq
          cases hq2 : q.2 with
          | str s =>
            refine ⟨s, rfl, ?_⟩
            rw [hq2] at hf
            simpa using hf
          | num n => rw [hq2] at hf; cases hf
          | obj o => rw [hq2] at hf; cases hf
          | arr a => rw [hq2] at hf; cases hf

/-- Witness for c1_validator_amended: its general part instantiated at the
concrete template fmtDS and payload payloadDSGood. -/
theorem c1_validator_amended_witness :
    ∃ items, PyTara.lookupKey PyTara.payloadDSGood
        "possible_damage_scenario_list" =
        some (PyTara.Json.arr items) ∧
      items ≠ [] ∧
      ∀ item ∈ items, ∃ fields, item = PyTara.Json.obj fields ∧
        ∀ q ∈ fields, ∃ s, q.2 = PyTara.Json.str s ∧
          PyTara.isBlank s = false :=
  c1_validator_amended.1 PyTara.fmtDS PyTara.payloadDSGood
    "possible_damage_scenario_list"
    (PyTara.Json.arr [PyTara.Json.obj [("damage_scenario_1",
      PyTara.Json.str "x")]])
    (by simp [PyTara.fmtDS]) (by rfl) (by rfl)

/-- C8: _validate_json_response returns the direct parse of the whole text
when it succeeds; otherwise it returns the parse of the substring from the
first opening brace to the last closing brace when that succeeds; and it
fails (raises ValueError, modelled by none) exactly when the direct parse
fails and either no brace region exists or the salvaged substring fails to
parse. -/
theorem c8_json_salvage {α : Type} (loads : String → Option α)
    (text : String) :
    (∀ j, loads text = some j →
      PyTara.validate_json_response loads text = some j) ∧
    (∀ s e j, loads text = none →
      PyTara.strFind text '{' = some s →
      PyTara.strRfind text '}' = some e →
      loads (PyTara.pySlice text s (e + 1)) = some j →
      PyTara.validate_json_response loads text = some j) ∧
    (PyTara.validate_json_response loads text = none ↔
      loads text = none ∧
        ∀ s e, PyTara.strFind text '{' = some s →
          PyTara.strRfind text '}' = some e →
          loads (PyTara.pySlice text s (e + 1)) = none) := by
  refine ⟨?_, ?_, ?_⟩
  · intro j hj
    simp [PyTara.validate_json_response, hj]
  · intro s e j hl hf hr hsl
    simp [PyTara.validate_json_response, hl, hf, hr, hsl]
  · cases hl : loads text with
    | some j => simp [PyTara.validate_json_response, hl]
    | none =>
      cases hf : PyTara.strFind text '{' with
      | none => simp [PyTara.validate_json_response, hl, hf]
      | some s =>
        cases hr : PyTara.strRfind text '}' with
        | none => simp [PyTara.validate_json_response, hl, hf, hr]
        | some e => simp [PyTara.validate_json_response, hl, hf, hr]

/-- Witness for c8_json_salvage: the salvage branch applied to the concrete
oracle loadsW and text textW, whose direct parse fails but whose brace
region parses to 3. -/
theorem c8_json_salvage_witness :
    PyTara.validate_json_response PyTara.loadsW PyTara.textW = some 3 :=
  (c8_json_salvage PyTara.loadsW PyTara.textW).2.1 1 3 3
    (by rfl) (by rfl) (by rfl) (by rfl)

/-- C2: with maxRetries = 3 the request_ai_response loop makes at most 4
attempts, the sleep between attempt k and attempt k + 1 (1-indexed, i = k - 1
here) is min(2 ^ (k - 1), 30) seconds, and the loop only raises (none) after
using all 4 attempts. -/
theorem c2_backoff_bound {α : Type} (outcome : Nat → Option α) :
    (PyTara.request_ai_response outcome 3).attempts ≤ 4 ∧
    (∀ i, i < (PyTara.request_ai_response outcome 3).delays.length →
      (PyTara.request_ai_response outcome 3).delays.getD i 0
        = min (2 ^ i) 30) ∧
    ((PyTara.request_ai_response outcome 3).result = none →
      (PyTara.request_ai_response outcome 3).attempts = 4) := by
  have h := PyTara.request_go_spec outcome 3 0
  refine ⟨h.1, ?_, h.2.2⟩
  intro i hi
  simpa using h.2.1 i hi

/-- Witness for c2_backoff_bound: an always-failing outcome uses all 4
attempts and its first inter-attempt sleep is min(1, 30) = 1 second. -/
theorem c2_backoff_bound_witness :
    (PyTara.request_ai_response (fun _ => (none : Option Nat)) 3).delays.getD
        0 0 = min (2 ^ 0) 30 ∧
    (PyTara.request_ai_response (fun _ => (none : Option Nat)) 3).attempts
        = 4 :=
  ⟨(c2_backoff_bound (fun _ => (none : Option Nat))).2.1 0 (by decide),
   (c2_backoff_bound (fun _ => (none : Option Nat))).2.2 (by rfl)⟩

/-- C7: the orchestrator retry around the terminal stage pair makes at most 3
total attempts (2 extra beyond the first), sleeps 2 ^ (k - 1) seconds before
retry k (1-indexed, i = k - 1 here), and on exhaustion the loop result is
None (returned, not raised). -/
theorem c7_orchestrator_retry {α : Type} (outcome : Nat → Option α) :
    (PyTara.process_threat_scenario outcome).attempts ≤ 3 ∧
    (∀ i, i < (PyTara.process_threat_scenario outcome).delays.length →
      (PyTara.process_threat_scenario outcome).delays.getD i 0 = 2 ^ i) ∧
    ((PyTara.process_threat_scenario outcome).result = none →
      (PyTara.process_threat_scenario outcome).attempts = 3) := by
  have h := PyTara.pts_go_spec outcome 2 0
  refine ⟨h.1, ?_, h.2.2⟩
  intro i hi
  simpa using h.2.1 i hi

/-- Witness for c7_orchestrator_retry: an always-failing branch makes exactly
3 attempts and its first retry sleep is 1 second. -/
theorem c7_orchestrator_retry_witness :
    (PyTara.process_threat_scenario (fun _ => (none : Option Nat))).delays.getD
        0 0 = 2 ^ 0 ∧
    (PyTara.process_threat_scenario (fun _ => (none : Option Nat))).attempts
        = 3 :=
  ⟨(c7_orchestrator_retry (fun _ => (none : Option Nat))).2.1 0 (by decide),
   (c7_orchestrator_retry (fun _ => (none : Option Nat))).2.2 (by rfl)⟩

/-- C4: for every sequence of refills and acquisition attempts with
non-negative token amounts, the bucket state of BaseAIAssistant keeps
0 ≤ tokens ≤ max_burst: refills cap at max_burst and a successful
acquisition (which only debits when tokens ≥ required_tokens) never drives
tokens negative. -/
theorem c4_token_bucket_invariant (b : PyTara.TokenBucket)
    (ops : List PyTara.BucketOp) (hb : PyTara.BucketInvariant b)
    (hops : ∀ op ∈ ops, PyTara.BucketOpNonneg op) :
    PyTara.BucketInvariant (PyTara.run_bucket b ops) := by
  induction ops generalizing b with
  | nil => exact hb
  | cons op ops ih =>
    cases op with
    | refill t =>
      exact ih (PyTara._refill_tokens b t)
        (PyTara.refill_invariant b t hb)
        (fun o ho => hops o (List.mem_cons_of_mem _ ho))
    | acquire t n =>
      have hn : (0 : ℚ) ≤ n := hops _ (List.mem_cons_self _ _)
      exact ih (PyTara._acquire_token_step b t n).1
        (PyTara.acquire_invariant b t n hb hn)
        (fun o ho => hops o (List.mem_cons_of_mem _ ho))

/-- Witness for c4_token_bucket_invariant: the constructor state (10 tokens,
burst 10, refill rate 20/60) run through one successful acquisition and one
refill. -/
theorem c4_token_bucket_invariant_witness :
    PyTara.BucketInvariant
      (PyTara.run_bucket ⟨10, 10, 0, 1 / 3⟩
        [PyTara.BucketOp.acquire 1 1, PyTara.BucketOp.refill 2]) :=
  c4_token_bucket_invariant ⟨10, 10, 0, 1 / 3⟩
    [PyTara.BucketOp.acquire 1 1, PyTara.BucketOp.refill 2]
    (by constructor <;> norm_num [PyTara.BucketInvariant])
    (by
      intro op hop
      fin_cases hop
      · norm_num [PyTara.BucketOpNonneg]
      · trivial)

/-- C5 counterexample: with a configured timeout of 200 seconds the first
per-attempt timeout is 200 > 120 and the sequence decreases from 200 to 120
after the first timeout failure, so the claim fails as stated for every
initial configured timeout. -/
theorem c5_timeout_counterexample :
    PyTara.timeout_seq 200 0 = 200 ∧
    PyTara.timeout_seq 200 1 = 120 ∧
    ¬ (PyTara.timeout_seq 200 0 ≤ PyTara.timeout_seq 200 1) ∧
    ¬ (PyTara.timeout_seq 200 0 ≤ 120) := by
  refine ⟨rfl, ?_, ?_, ?_⟩ <;>
    norm_num [PyTara.timeout_seq, PyTara.update_timeout]

/-- C5 amended: when the configured timeout lies between 0 and the 120-second
ceiling (as the DeepSeek default of 60 does), the per-attempt timeout
sequence is non-decreasing and never exceeds 120. -/
theorem c5_timeout_growth (t0 : ℚ) (h0 : 0 ≤ t0) (h120 : t0 ≤ 120) :
    ∀ n, PyTara.timeout_seq t0 n ≤ PyTara.timeout_seq t0 (n + 1) ∧
      PyTara.timeout_seq t0 n ≤ 120 := by
  have key : ∀ n, 0 ≤ PyTara.timeout_seq t0 n ∧
      PyTara.timeout_seq t0 n ≤ 120 := by
    intro n
    induction n with
    | zero => exact ⟨h0, h120⟩
    | succ n ih =>
      obtain ⟨ih0, ih120⟩ := ih
      constructor
      · exact le_min (by linarith) (by norm_num)
      · exact min_le_right _ _
  intro n
  obtain ⟨hn0, hn120⟩ := key n
  exact ⟨le_min (by linarith) (by linarith), hn120⟩

/-- Witness for c5_timeout_growth: the default configured timeout of 60
seconds, checked at the first step. -/
theorem c5_timeout_growth_witness :
    PyTara.timeout_seq 60 0 ≤ PyTara.timeout_seq 60 1 ∧
    PyTara.timeout_seq 60 0 ≤ 120 :=
  c5_timeout_growth 60 (by norm_num) (by norm_num) 0

/-- C6: when the artifact's risk-treatment decision is an enumerated value
other than Reduce, asset_cso_csr_assessment issues no request and returns
the artifact unchanged except for an attached empty
CybersecurityControlRequirement; when the decision is Reduce it issues its
request and populates the control-requirement fields from the response. -/
theorem c6_cso_csr_frame {A D T : Type} (analysis : PyTara.CsoCsrAnalysis)
    (csr_id : String) (a : PyTara.AssetTaraInfo A D T)
    (rtd : PyTara.RiskTreatmentDecision) (rt : PyTara.RiskTreatmentOption)
    (hrtd : a.risk_treatment_decision = some rtd)
    (hrt : rtd.risk_treatment = some rt) :
    (rt ≠ PyTara.RiskTreatmentOption.REDUCE →
      PyTara.asset_cso_csr_assessment analysis csr_id a =
        some ({ a with cybersecurity_control_requirement := some PyTara.emptyCCR }, false)) ∧
    (rt = PyTara.RiskTreatmentOption.REDUCE →
      PyTara.asset_cso_csr_assessment analysis csr_id a =
        some ({ a with cybersecurity_control_requirement := some (PyTara.populatedCCR analysis csr_id) }, true)) := by
  obtain ⟨aca, dsil, tsaf, rtdo, ccr⟩ := a
  simp only at hrtd
  subst hrtd
  constructor
  · intro hne
    cases rt <;>
      simp_all [PyTara.asset_cso_csr_assessment, hrt,
        PyTara.RiskTreatmentOption.nameLower]
  · intro heq
    subst heq
    simp [PyTara.asset_cso_csr_assessment, hrt,
      PyTara.RiskTreatmentOption.nameLower]

/-- Witness for c6_cso_csr_frame: a concrete Retain artifact passes through
with an empty requirement attached and every other field intact. -/
theorem c6_cso_csr_frame_witness :
    PyTara.asset_cso_csr_assessment PyTara.witnessAnalysis "CSR-xyz"
      PyTara.witnessArtifact =
      some ({ PyTara.witnessArtifact with cybersecurity_control_requirement := some PyTara.emptyCCR }, false) :=
  (c6_cso_csr_frame PyTara.witnessAnalysis "CSR-xyz" PyTara.witnessArtifact
    _ _ rfl rfl).1 (by decide)

/-- C9 counterexample: one completed branch whose result list has two
elements makes the aggregated count 2 while the number of completed branches
is 1, so the aggregated count does not equal the number of completed
branches as the claim states. -/
theorem c9_fan_in_counterexample :
    (PyTara.collect_branch_results
      [(Except.ok [0, 1] : Except Unit (List Nat))]).length = 2 ∧
    (PyTara.completed_results
      [(Except.ok [0, 1] : Except Unit (List Nat))]).length = 1 ∧
    (PyTara.collect_branch_results
      [(Except.ok [0, 1] : Except Unit (List Nat))]).length ≠
      (PyTara.completed_results
        [(Except.ok [0, 1] : Except Unit (List Nat))]).length :=
  ⟨rfl, rfl, by decide⟩

/-- C9 amended: the fan-in loops aggregate exactly the concatenation of the
completed branches' outcomes and skip every exception outcome; the
aggregated count is the total size of the completed branches' results (the
number of completed branches when each contributes one element); and failing
one branch removes only that branch's contribution, leaving the siblings'
contributions exactly as if the failed branch were absent. -/
theorem c9_fan_in_isolation :
    (∀ (e a : Type) (outcomes : List (Except e (List a))),
      PyTara.collect_branch_results outcomes =
        (PyTara.completed_results outcomes).flatten) ∧
    (∀ (e a : Type) (outcomes : List (Except e (List a))),
      (PyTara.collect_branch_results outcomes).length =
        ((PyTara.completed_results outcomes).map List.length).sum) ∧
    (∀ (e a : Type) (outcomes : List (Except e (List a))) (i : Nat) (err : e),
      PyTara.collect_branch_results (outcomes.set i (Except.error err)) =
        PyTara.collect_branch_results (outcomes.eraseIdx i)) := by
  refine ⟨?_, ?_, ?_⟩
  · intro e a outcomes
    exact PyTara.collect_branch_results_eq outcomes
  · intro e a outcomes
    rw [PyTara.collect_branch_results_eq]
    exact List.length_flatten _
  · intro e a outcomes i err
    rw [PyTara.collect_branch_results_eq, PyTara.collect_branch_results_eq,
      PyTara.completed_set_error]
